import Mathlib

/-!
Verification of the solution-lifecycle core of the XcelCrowd platform.

The visible TypeScript surface is the HTTP controller
(src/backend/src/controllers/solution.controller.ts); the service layer it
delegates to is not part of the visible sources, so the service operations
below are modelled from the specification (each such definition says so in
its doc comment).  Controller-level computations (pagination envelope,
request-field forwarding, challenge-reference selection) are embedded
directly from the controller source.

Identifiers (student, architect, company, challenge, solution) are strings,
matching the MongoDB ObjectId strings used by the code.
-/

namespace XcelCrowd

/-- Lifecycle status of a Solution, per the spec's five-state graph:
SUBMITTED, CLAIMED, APPROVED, REJECTED, SELECTED. -/
inductive SolutionStatus where
  | submitted
  | claimed
  | approved
  | rejected
  | selected
deriving DecidableEq, Repr

/-- Error taxonomy of the service layer, per the spec:
ValidationError, NotFoundError, ForbiddenError, InvalidStateError,
ConflictError. -/
inductive ServiceError where
  | validationError
  | notFoundError
  | forbiddenError
  | invalidStateError
  | conflictError
deriving DecidableEq, Repr

/-- The Solution entity, per the spec's data model: immutable identity and
ownership references, mutable content fields, lifecycle status, the
reviewer binding, and the review/selection payload fields. -/
structure Solution where
  id : String
  challengeId : String
  studentId : String
  title : String
  description : String
  submissionUrl : String
  tags : List String
  status : SolutionStatus
  reviewerId : Option String
  feedback : Option String
  score : Option Nat
  companyFeedback : Option String
  selectionReason : Option String
deriving DecidableEq, Repr

/-- Content patch forwarded by the update controller: exactly the three
fields it extracts from the request body (title, description,
submissionUrl); a `none` field was left undefined in the request. -/
structure ContentPatch where
  title : Option String
  description : Option String
  submissionUrl : Option String
deriving DecidableEq, Repr

/-- Outcome argument of a review: the two allowed review outcomes. -/
inductive ReviewDecision where
  | approve
  | reject
deriving DecidableEq, Repr

/-- Payload of a review request: decision, feedback, score. -/
structure ReviewInput where
  decision : ReviewDecision
  feedback : Option String
  score : Option Nat
deriving DecidableEq, Repr

/-- Modelled from the spec: SolutionService.submitSolution (service layer
not in the visible sources).  Creates a Solution in SUBMITTED state owned
by the student, with no reviewer bound and no review/selection data. -/
def submitSolution (newId studentId challengeId : String)
    (title description submissionUrl : String) (tags : List String) :
    Solution :=
  { id := newId
    challengeId := challengeId
    studentId := studentId
    title := title
    description := description
    submissionUrl := submissionUrl
    tags := tags
    status := SolutionStatus.submitted
    reviewerId := none
    feedback := none
    score := none
    companyFeedback := none
    selectionReason := none }

/-- Modelled from the spec: SolutionService.updateSolution (service layer
not in the visible sources).  The caller must be the owning student (else
ForbiddenError), the solution must still be SUBMITTED (editing after claim
is a ConflictError), and fields left undefined in the patch keep their
previous values. -/
def updateSolution (sol : Solution) (studentId : String)
    (c : ContentPatch) : Except ServiceError Solution :=
  if studentId ≠ sol.studentId then
    Except.error ServiceError.forbiddenError
  else if sol.status ≠ SolutionStatus.submitted then
    Except.error ServiceError.conflictError
  else
    Except.ok { sol with
      title := c.title.getD sol.title
      description := c.description.getD sol.description
      submissionUrl := c.submissionUrl.getD sol.submissionUrl }

/-- Modelled from the spec: SolutionService.claimSolutionForReview (service
layer not in the visible sources).  Atomic conditional update: if the
solution is SUBMITTED with no reviewer bound, move it to CLAIMED and bind
the reviewer; an already-claimed solution yields ConflictError (the spec's
scenario shows a second claimant receiving ConflictError); any other
status yields InvalidStateError. -/
def claimSolutionForReview (sol : Solution) (architectId : String) :
    Except ServiceError Solution :=
  match sol.status with
  | SolutionStatus.submitted =>
      match sol.reviewerId with
      | none =>
          Except.ok { sol with
            status := SolutionStatus.claimed
            reviewerId := some architectId }
      | some _ => Except.error ServiceError.conflictError
  | SolutionStatus.claimed => Except.error ServiceError.conflictError
  | _ => Except.error ServiceError.invalidStateError

/-- Modelled from the spec: SolutionService.reviewSolution (service layer
not in the visible sources).  The solution must be CLAIMED (else
InvalidStateError) and the caller must be the bound reviewer (else
ForbiddenError); approving requires a score within the 0 to 100 policy
bound and moves to APPROVED, rejecting moves to REJECTED. -/
def reviewSolution (sol : Solution) (architectId : String)
    (r : ReviewInput) : Except ServiceError Solution :=
  if sol.status ≠ SolutionStatus.claimed then
    Except.error ServiceError.invalidStateError
  else if sol.reviewerId ≠ some architectId then
    Except.error ServiceError.forbiddenError
  else
    match r.decision with
    | ReviewDecision.approve =>
        match r.score with
        | none => Except.error ServiceError.validationError
        | some sc =>
            if sc ≤ 100 then
              Except.ok { sol with
                status := SolutionStatus.approved
                feedback := r.feedback
                score := some sc }
            else Except.error ServiceError.validationError
    | ReviewDecision.reject =>
        Except.ok { sol with
          status := SolutionStatus.rejected
          feedback := r.feedback
          score := r.score }

/-- Modelled from the spec: SolutionService.selectSolutionAsWinner (service
layer not in the visible sources).  The solution must be APPROVED (else
InvalidStateError, per the spec's testable property that selection from
SUBMITTED, CLAIMED or REJECTED fails with InvalidStateError); the calling
company must own the referenced Challenge, resolved through the
challenge-ownership collaborator (else ForbiddenError; NotFoundError when
the challenge is absent). -/
def selectSolutionAsWinner (challengeOwner : String → Option String)
    (sol : Solution) (companyId : String)
    (companyFeedback selectionReason : Option String) :
    Except ServiceError Solution :=
  if sol.status ≠ SolutionStatus.approved then
    Except.error ServiceError.invalidStateError
  else
    match challengeOwner sol.challengeId with
    | none => Except.error ServiceError.notFoundError
    | some owner =>
        if owner ≠ companyId then
          Except.error ServiceError.forbiddenError
        else
          Except.ok { sol with
            status := SolutionStatus.selected
            companyFeedback := companyFeedback
            selectionReason := selectionReason }

/-- A lifecycle operation on an existing Solution (submit creates a fresh
Solution and is modelled separately by `submitSolution`). -/
inductive LifecycleOp where
  | update (studentId : String) (c : ContentPatch)
  | claim (architectId : String)
  | review (architectId : String) (r : ReviewInput)
  | select (companyId : String) (companyFeedback selectionReason : Option String)

/-- Dispatch one lifecycle operation to the corresponding service call. -/
def runOp (challengeOwner : String → Option String) (op : LifecycleOp)
    (sol : Solution) : Except ServiceError Solution :=
  match op with
  | LifecycleOp.update sid c => updateSolution sol sid c
  | LifecycleOp.claim aid => claimSolutionForReview sol aid
  | LifecycleOp.review aid r => reviewSolution sol aid r
  | LifecycleOp.select cid cf sr =>
      selectSolutionAsWinner challengeOwner sol cid cf sr

/-- The persisted state after one operation: a failed operation raises a
typed error and rolls back fully, leaving the record unchanged (spec §7:
no half-applied status change). -/
def applyOp (challengeOwner : String → Option String) (op : LifecycleOp)
    (sol : Solution) : Solution :=
  match runOp challengeOwner op sol with
  | Except.ok s => s
  | Except.error _ => sol

/-- The persisted state after a sequence of operations. -/
def runOps (challengeOwner : String → Option String)
    (ops : List LifecycleOp) (sol : Solution) : Solution :=
  ops.foldl (fun s op => applyOp challengeOwner op s) sol

/-- The edges of the lifecycle graph of spec §4.1:
SUBMITTED to CLAIMED, CLAIMED to APPROVED, CLAIMED to REJECTED,
APPROVED to SELECTED. -/
def statusEdge : SolutionStatus → SolutionStatus → Bool
  | SolutionStatus.submitted, SolutionStatus.claimed => true
  | SolutionStatus.claimed, SolutionStatus.approved => true
  | SolutionStatus.claimed, SolutionStatus.rejected => true
  | SolutionStatus.approved, SolutionStatus.selected => true
  | _, _ => false

/-- Paginated response envelope assembled by the controller
(solution.controller.ts, sendPaginatedSuccess call sites). -/
structure PaginatedEnvelope where
  total : Nat
  page : Nat
  limit : Nat
  totalPages : Nat
  hasNextPage : Bool
  hasPrevPage : Bool
deriving DecidableEq, Repr

/-- Embeds the envelope arithmetic of the controller (lines 115-127,
156-168, 361-374): totalPages is the JavaScript
Math.ceil(result.total / result.limit), which for natural total and
positive limit is the ceiling division (total + limit - 1) / limit;
hasNextPage is result.page * result.limit < result.total; hasPrevPage is
result.page > 1. -/
def paginatedEnvelope (total page limit : Nat) : PaginatedEnvelope :=
  { total := total
    page := page
    limit := limit
    totalPages := (total + limit - 1) / limit
    hasNextPage := decide (page * limit < total)
    hasPrevPage := decide (1 < page) }

/-- Modelled from the spec: the number of items the service returns on one
page of a listing (the store skips (page - 1) * limit records and returns
at most limit of the remaining ones); the slicing itself happens in the
service layer, which is not in the visible sources. -/
def pageItemCount (total page limit : Nat) : Nat :=
  min limit (total - (page - 1) * limit)

/-- Request body of POST /api/solutions as the submit controller reads it:
the challenge reference may arrive under either field name, and content
fields follow. -/
structure SubmitBody where
  challenge : Option String
  challengeId : Option String
  title : String
  description : String
  submissionUrl : String
  tags : List String
deriving DecidableEq, Repr

/-- JavaScript truthiness of an optional string: undefined and the empty
string are falsy. -/
def jsTruthy : Option String → Bool
  | none => false
  | some s => decide (s ≠ "")

/-- Embeds the controller expression `challengeId || challenge`
(solution.controller.ts line 45): the first operand is chosen when it is
truthy, otherwise the second. -/
def effectiveChallengeRef (body : SubmitBody) : Option String :=
  if jsTruthy body.challengeId then body.challengeId else body.challenge

/-- Modelled from the spec: MongoSanitizer.validateObjectId (utility not in
the visible sources).  A malformed or missing id is rejected with
ValidationError; a well-formed MongoDB ObjectId is 24 hexadecimal
characters. -/
def isValidObjectId (s : String) : Bool :=
  s.length = 24 &&
    s.data.all fun c =>
      c.isDigit || ('a' ≤ c && c ≤ 'f') || ('A' ≤ c && c ≤ 'F')

/-- Modelled from the spec: validation step applied by the submit
controller to the chosen challenge reference before the service call. -/
def validateObjectId : Option String → Except ServiceError String
  | none => Except.error ServiceError.validationError
  | some s =>
      if isValidObjectId s then Except.ok s
      else Except.error ServiceError.validationError

/-- Embeds the submit controller (solution.controller.ts lines 38-69):
normalize the challenge reference from the two accepted field names,
validate it as an ObjectId (a validation failure is rethrown before the
service is invoked, so no solution is created), then call the service
with the validated id and the content fields. -/
def submitSolutionController (newId studentId : String)
    (body : SubmitBody) : Except ServiceError Solution :=
  match validateObjectId (effectiveChallengeRef body) with
  | Except.error e => Except.error e
  | Except.ok cid =>
      Except.ok (submitSolution newId studentId cid
        body.title body.description body.submissionUrl body.tags)

/-- Request body of PUT /api/solutions/:id: the client may send any of the
content fields, including tags. -/
structure UpdateBody where
  title : Option String
  description : Option String
  submissionUrl : Option String
  tags : Option (List String)
deriving DecidableEq, Repr

/-- Embeds the update controller (solution.controller.ts lines 203-226):
it destructures only title, description and submissionUrl from the
request body and forwards exactly those to the service; any tags field in
the body is dropped. -/
def updateSolutionController (sol : Solution) (studentId : String)
    (body : UpdateBody) : Except ServiceError Solution :=
  updateSolution sol studentId
    { title := body.title
      description := body.description
      submissionUrl := body.submissionUrl }

/-- A sample solution sitting in SUBMITTED state, used to instantiate
hypotheses of the lifecycle theorems. -/
def sampleSubmitted : Solution :=
  { id := "sol1"
    challengeId := "chal1"
    studentId := "stu1"
    title := "X"
    description := "desc"
    submissionUrl := "http://a"
    tags := ["web"]
    status := SolutionStatus.submitted
    reviewerId := none
    feedback := none
    score := none
    companyFeedback := none
    selectionReason := none }

/-- A sample solution claimed by architect "archB". -/
def sampleClaimed : Solution :=
  { sampleSubmitted with
    status := SolutionStatus.claimed
    reviewerId := some "archB" }

/-- A sample solution approved by architect "archB". -/
def sampleApproved : Solution :=
  { sampleClaimed with
    status := SolutionStatus.approved
    feedback := some "good"
    score := some 90 }

/-- A sample review payload approving with score 90. -/
def sampleReview : ReviewInput :=
  { decision := ReviewDecision.approve
    feedback := some "good"
    score := some 90 }

/-- A sample challenge-ownership collaborator: challenge "chal1" is owned
by company "comp1". -/
def sampleOwner : String → Option String :=
  fun c => if c = "chal1" then some "comp1" else none

/-- Any successful lifecycle operation either keeps the status or follows
one edge of the lifecycle graph. -/
theorem runOp_ok_status (co : String → Option String) (op : LifecycleOp)
    (s s' : Solution) (h : runOp co op s = Except.ok s') :
    s'.status = s.status ∨ statusEdge s.status s'.status = true := by
  cases op with
  | update sid c =>
      simp only [runOp, updateSolution] at h
      split at h
      · simp at h
      · split at h
        · simp at h
        · rw [Except.ok.injEq] at h
          subst h
          exact Or.inl rfl
  | claim aid =>
      simp only [runOp, claimSolutionForReview] at h
      cases hs : s.status <;> rw [hs] at h <;> simp at h
      cases hr : s.reviewerId <;> rw [hr] at h <;> simp at h
      subst h
      right
      rfl
  | review aid r =>
      simp only [runOp, reviewSolution] at h
      split at h
      · simp at h
      · split at h
        · simp at h
        · rename_i hcl _
          rw [not_not] at hcl
          cases hd : r.decision <;> simp only [hd] at h
          · cases hsc : r.score <;> simp only [hsc] at h
            · simp at h
            · split at h
              · rw [Except.ok.injEq] at h
                subst h
                right
                rw [hcl]
                rfl
              · simp at h
          · rw [Except.ok.injEq] at h
            subst h
            right
            rw [hcl]
            rfl
  | select cid cf sr =>
      simp only [runOp, selectSolutionAsWinner] at h
      split at h
      · simp at h
      · rename_i hap
        rw [not_not] at hap
        split at h
        · simp at h
        · split at h
          · simp at h
          · rw [Except.ok.injEq] at h
            subst h
            right
            rw [hap]
            rfl

/-- One applied operation either leaves the status unchanged (in
particular when the operation fails and rolls back) or moves it along one
edge of the lifecycle graph. -/
theorem applyOp_status_step (co : String → Option String)
    (op : LifecycleOp) (s : Solution) :
    (applyOp co op s).status = s.status ∨
      statusEdge s.status (applyOp co op s).status = true := by
  unfold applyOp
  cases h : runOp co op s with
  | ok s' => exact runOp_ok_status co op s s' h
  | error e => exact Or.inl rfl

/-- C1: for every Solution and every sequence of lifecycle operations, the
status only moves forward along the lifecycle graph (the final status is
reachable from the initial one through graph edges), and no single
operation ever produces a transition that is not an edge of the graph —
so no backward transition and no transition skipping a required
predecessor can occur. -/
theorem lifecycle_status_monotonic (co : String → Option String)
    (sol : Solution) (ops : List LifecycleOp) :
    Relation.ReflTransGen (fun a b => statusEdge a b = true)
      sol.status (runOps co ops sol).status ∧
    ∀ (op : LifecycleOp) (s : Solution),
      (applyOp co op s).status = s.status ∨
        statusEdge s.status (applyOp co op s).status = true := by
  refine ⟨?_, fun op s => applyOp_status_step co op s⟩
  induction ops generalizing sol with
  | nil => exact Relation.ReflTransGen.refl
  | cons op rest ih =>
      have hstep := applyOp_status_step co op sol
      have htail := ih (applyOp co op sol)
      have hhead :
          Relation.ReflTransGen (fun a b => statusEdge a b = true)
            sol.status (applyOp co op sol).status := by
        cases hstep with
        | inl he => rw [he]
        | inr he => exact Relation.ReflTransGen.single he
      exact hhead.trans htail

/-- Once a reviewer is bound, no lifecycle operation changes it. -/
theorem applyOp_reviewer_preserved (co : String → Option String)
    (op : LifecycleOp) (s : Solution) (x : String)
    (hx : s.reviewerId = some x) :
    (applyOp co op s).reviewerId = some x := by
  unfold applyOp
  cases h : runOp co op s with
  | error e => exact hx
  | ok s' =>
      cases op with
      | update sid c =>
          simp only [runOp, updateSolution] at h
          split at h
          · simp at h
          · split at h
            · simp at h
            · rw [Except.ok.injEq] at h
              subst h
              exact hx
      | claim aid =>
          simp only [runOp, claimSolutionForReview] at h
          cases hs : s.status <;> rw [hs] at h <;> simp at h
          rw [hx] at h
          simp at h
      | review aid r =>
          simp only [runOp, reviewSolution] at h
          split at h
          · simp at h
          · split at h
            · simp at h
            · cases hd : r.decision <;> simp only [hd] at h
              · cases hsc : r.score <;> simp only [hsc] at h
                · simp at h
                · split at h
                  · rw [Except.ok.injEq] at h
                    subst h
                    exact hx
                  · simp at h
              · rw [Except.ok.injEq] at h
                subst h
                exact hx
      | select cid cf sr =>
          simp only [runOp, selectSolutionAsWinner] at h
          split at h
          · simp at h
          · split at h
            · simp at h
            · split at h
              · simp at h
              · rw [Except.ok.injEq] at h
                subst h
                exact hx

/-- C2: on a SUBMITTED solution with no reviewer bound, of two claim calls
by different architects the first to reach the store succeeds, binding the
reviewer to that architect, and the other then fails with ConflictError
(operations are atomic conditional updates, so a concurrent pair
serializes into the two orders covered by the universally quantified
architects); moreover reviewerId, once set, is never reassigned by any
operation. -/
theorem claim_exclusivity (sol : Solution) (a b : String)
    (hs : sol.status = SolutionStatus.submitted)
    (hr : sol.reviewerId = none) (_hab : a ≠ b) :
    (∃ s1, claimSolutionForReview sol a = Except.ok s1 ∧
      s1.reviewerId = some a ∧ s1.status = SolutionStatus.claimed ∧
      claimSolutionForReview s1 b =
        Except.error ServiceError.conflictError) ∧
    ∀ (co : String → Option String) (op : LifecycleOp) (s : Solution)
      (x : String), s.reviewerId = some x →
        (applyOp co op s).reviewerId = some x := by
  constructor
  · have h1 : claimSolutionForReview sol a = Except.ok
        ({ sol with status := SolutionStatus.claimed, reviewerId := some a } : Solution) := by
      simp only [claimSolutionForReview, hs, hr]
    exact ⟨_, h1, rfl, rfl, rfl⟩
  · exact fun co op s x hx => applyOp_reviewer_preserved co op s x hx

/-- Closed witness for C2 on the sample data. -/
theorem claim_exclusivity_witness :
    sampleSubmitted.status = SolutionStatus.submitted ∧
    sampleSubmitted.reviewerId = none ∧
    ∃ s1, claimSolutionForReview sampleSubmitted "archB" = Except.ok s1 ∧
      s1.reviewerId = some "archB" ∧
      s1.status = SolutionStatus.claimed ∧
      claimSolutionForReview s1 "archD" =
        Except.error ServiceError.conflictError :=
  ⟨rfl, rfl,
    (claim_exclusivity sampleSubmitted "archB" "archD" rfl rfl
      (by decide)).1⟩

/-- C3: on a CLAIMED solution, review by any architect other than the
bound reviewer fails with ForbiddenError and leaves status and reviewerId
unchanged; review on a solution that is not CLAIMED fails with
InvalidStateError; and a successful review implies the solution was
CLAIMED and the caller was the bound reviewer. -/
theorem review_authorization (co : String → Option String)
    (sol : Solution) (aid : String) (r : ReviewInput) :
    (sol.status = SolutionStatus.claimed → sol.reviewerId ≠ some aid →
      reviewSolution sol aid r =
        Except.error ServiceError.forbiddenError ∧
      (applyOp co (LifecycleOp.review aid r) sol).status = sol.status ∧
      (applyOp co (LifecycleOp.review aid r) sol).reviewerId =
        sol.reviewerId) ∧
    (sol.status ≠ SolutionStatus.claimed →
      reviewSolution sol aid r =
        Except.error ServiceError.invalidStateError) ∧
    (∀ s', reviewSolution sol aid r = Except.ok s' →
      sol.status = SolutionStatus.claimed ∧
        sol.reviewerId = some aid) := by
  refine ⟨fun h1 h2 => ?_, fun h1 => ?_, fun s' h => ?_⟩
  · have he : reviewSolution sol aid r =
        Except.error ServiceError.forbiddenError := by
      simp [reviewSolution, h1, h2]
    exact ⟨he, by simp [applyOp, runOp, he], by simp [applyOp, runOp, he]⟩
  · simp [reviewSolution, h1]
  · have hst : sol.status = SolutionStatus.claimed := by
      by_contra hne
      simp [reviewSolution, hne] at h
    refine ⟨hst, ?_⟩
    by_contra hne
    simp [reviewSolution, hst, hne] at h

/-- Closed witness for C3 on the sample data. -/
theorem review_authorization_witness :
    reviewSolution sampleClaimed "archZ" sampleReview =
      Except.error ServiceError.forbiddenError ∧
    reviewSolution sampleSubmitted "archB" sampleReview =
      Except.error ServiceError.invalidStateError :=
  ⟨((review_authorization sampleOwner sampleClaimed "archZ"
      sampleReview).1 rfl (by decide)).1,
    (review_authorization sampleOwner sampleSubmitted "archB"
      sampleReview).2.1 (by decide)⟩

/-- C4: selecting a winner from SUBMITTED, CLAIMED or REJECTED fails with
InvalidStateError; on an APPROVED solution a company that does not own
the referenced challenge fails with ForbiddenError; and a successful
selection implies the solution was APPROVED and the caller owns the
challenge. -/
theorem select_requires_approved (ownerOf : String → Option String)
    (sol : Solution) (cid : String) (cf sr : Option String) :
    ((sol.status = SolutionStatus.submitted ∨
        sol.status = SolutionStatus.claimed ∨
        sol.status = SolutionStatus.rejected) →
      selectSolutionAsWinner ownerOf sol cid cf sr =
        Except.error ServiceError.invalidStateError) ∧
    (∀ o, sol.status = SolutionStatus.approved →
      ownerOf sol.challengeId = some o → o ≠ cid →
      selectSolutionAsWinner ownerOf sol cid cf sr =
        Except.error ServiceError.forbiddenError) ∧
    (∀ s', selectSolutionAsWinner ownerOf sol cid cf sr =
        Except.ok s' →
      sol.status = SolutionStatus.approved ∧
        ownerOf sol.challengeId = some cid) := by
  refine ⟨fun h => ?_, fun o h1 h2 h3 => ?_, fun s' h => ?_⟩
  · rcases h with h | h | h <;> simp [selectSolutionAsWinner, h]
  · simp [selectSolutionAsWinner, h1, h2, h3]
  · have hst : sol.status = SolutionStatus.approved := by
      by_contra hne
      simp [selectSolutionAsWinner, hne] at h
    refine ⟨hst, ?_⟩
    cases ho : ownerOf sol.challengeId with
    | none => simp [selectSolutionAsWinner, hst, ho] at h
    | some o =>
        by_cases he : o = cid
        · rw [he]
        · simp [selectSolutionAsWinner, hst, ho, he] at h

/-- Closed witness for C4 on the sample data. -/
theorem select_requires_approved_witness :
    selectSolutionAsWinner sampleOwner sampleClaimed "comp1" none none =
      Except.error ServiceError.invalidStateError ∧
    selectSolutionAsWinner sampleOwner sampleApproved "comp2" none none =
      Except.error ServiceError.forbiddenError :=
  ⟨(select_requires_approved sampleOwner sampleClaimed
      "comp1" none none).1 (Or.inr (Or.inl rfl)),
    (select_requires_approved sampleOwner sampleApproved
      "comp2" none none).2.1 "comp1" rfl (by decide) (by decide)⟩

/-- C5: once a solution is no longer SUBMITTED, an update by the owning
student fails with ConflictError, any failed update leaves the record —
in particular every content field — unchanged, and an update by a
non-owning student fails with ForbiddenError. -/
theorem update_locked_after_claim (co : String → Option String)
    (sol : Solution) (sid : String) (c : ContentPatch) :
    (sid = sol.studentId → sol.status ≠ SolutionStatus.submitted →
      updateSolution sol sid c =
        Except.error ServiceError.conflictError) ∧
    (sol.status ≠ SolutionStatus.submitted →
      applyOp co (LifecycleOp.update sid c) sol = sol) ∧
    (sid ≠ sol.studentId →
      updateSolution sol sid c =
        Except.error ServiceError.forbiddenError) := by
  refine ⟨fun h1 h2 => ?_, fun h2 => ?_, fun h1 => ?_⟩
  · simp [updateSolution, h1, h2]
  · by_cases h1 : sid = sol.studentId
    · simp [applyOp, runOp, updateSolution, h1, h2]
    · simp [applyOp, runOp, updateSolution, h1]
  · simp [updateSolution, h1]

/-- Closed witness for C5 on the sample data. -/
theorem update_locked_after_claim_witness :
    updateSolution sampleClaimed "stu1"
      { title := some "Y", description := none, submissionUrl := none } =
      Except.error ServiceError.conflictError ∧
    updateSolution sampleClaimed "stu9"
      { title := some "Y", description := none, submissionUrl := none } =
      Except.error ServiceError.forbiddenError :=
  ⟨(update_locked_after_claim sampleOwner sampleClaimed "stu1"
      { title := some "Y", description := none,
        submissionUrl := none }).1 rfl (by decide),
    (update_locked_after_claim sampleOwner sampleClaimed "stu9"
      { title := some "Y", description := none,
        submissionUrl := none }).2.2 (by decide)⟩

/-- C6 counterexample: claiming a solution that is already CLAIMED — a
status other than SUBMITTED — fails with ConflictError, not with
InvalidStateError as the claim states for every non-SUBMITTED status
(this matches the spec's own scenario, where the second architect to
attempt a claim receives ConflictError). -/
theorem claim_invalid_state_counterexample :
    sampleClaimed.status ≠ SolutionStatus.submitted ∧
    claimSolutionForReview sampleClaimed "archD" =
      Except.error ServiceError.conflictError ∧
    claimSolutionForReview sampleClaimed "archD" ≠
      Except.error ServiceError.invalidStateError := by
  refine ⟨by decide, rfl, ?_⟩
  intro hco
  have hcf : claimSolutionForReview sampleClaimed "archD" =
      Except.error ServiceError.conflictError := rfl
  rw [hcf] at hco
  simp at hco

/-- C6 amended: claimForReview on a SUBMITTED solution with no reviewer
bound moves it to CLAIMED and binds reviewerId to the architect; on a
CLAIMED solution it fails with ConflictError; on an APPROVED, REJECTED or
SELECTED solution it fails with InvalidStateError. -/
theorem claim_transitions (sol : Solution) (aid : String) :
    (sol.status = SolutionStatus.submitted → sol.reviewerId = none →
      claimSolutionForReview sol aid = Except.ok
        ({ sol with status := SolutionStatus.claimed, reviewerId := some aid } : Solution)) ∧
    (sol.status = SolutionStatus.claimed →
      claimSolutionForReview sol aid =
        Except.error ServiceError.conflictError) ∧
    ((sol.status = SolutionStatus.approved ∨
        sol.status = SolutionStatus.rejected ∨
        sol.status = SolutionStatus.selected) →
      claimSolutionForReview sol aid =
        Except.error ServiceError.invalidStateError) := by
  refine ⟨fun h1 h2 => ?_, fun h1 => ?_, fun h => ?_⟩
  · simp only [claimSolutionForReview, h1, h2]
  · simp only [claimSolutionForReview, h1]
  · rcases h with h | h | h <;> simp only [claimSolutionForReview, h]

/-- Closed witness for the amended C6 on the sample data. -/
theorem claim_transitions_witness :
    claimSolutionForReview sampleSubmitted "archB" =
      Except.ok sampleClaimed ∧
    claimSolutionForReview sampleClaimed "archD" =
      Except.error ServiceError.conflictError ∧
    claimSolutionForReview sampleApproved "archD" =
      Except.error ServiceError.invalidStateError :=
  ⟨(claim_transitions sampleSubmitted "archB").1 rfl rfl,
    (claim_transitions sampleClaimed "archD").2.1 rfl,
    (claim_transitions sampleApproved "archD").2.2 (Or.inl rfl)⟩

/-- For positive limit, the natural-number formula used by the controller
is exactly the ceiling of the rational quotient. -/
theorem add_pred_div_eq_ceil (t l : Nat) (hl : 0 < l) :
    (t + l - 1) / l = ⌈(t : ℚ) / (l : ℚ)⌉₊ := by
  have hlq : (0 : ℚ) < (l : ℚ) := by exact_mod_cast hl
  apply le_antisymm
  · rw [Nat.div_le_iff_le_mul_add_pred hl]
    have h1 : (t : ℚ) / (l : ℚ) ≤ (⌈(t : ℚ) / (l : ℚ)⌉₊ : ℚ) :=
      Nat.le_ceil _
    have h2 : (t : ℚ) ≤ (⌈(t : ℚ) / (l : ℚ)⌉₊ : ℚ) * (l : ℚ) :=
      (div_le_iff₀ hlq).1 h1
    have h3 : t ≤ l * ⌈(t : ℚ) / (l : ℚ)⌉₊ := by
      rw [mul_comm]
      exact_mod_cast h2
    calc t + l - 1 = t + (l - 1) := by omega
      _ ≤ l * ⌈(t : ℚ) / (l : ℚ)⌉₊ + (l - 1) := Nat.add_le_add_right h3 _
  · rw [Nat.le_div_iff_mul_le hl]
    have h1 : (⌈(t : ℚ) / (l : ℚ)⌉₊ : ℚ) < (t : ℚ) / (l : ℚ) + 1 :=
      Nat.ceil_lt_add_one (by positivity)
    have h2 : (⌈(t : ℚ) / (l : ℚ)⌉₊ : ℚ) * (l : ℚ) <
        (t : ℚ) + (l : ℚ) := by
      have hm := mul_lt_mul_of_pos_right h1 hlq
      rw [add_mul, one_mul, div_mul_cancel₀ _ (ne_of_gt hlq)] at hm
      exact hm
    have h3 : ⌈(t : ℚ) / (l : ℚ)⌉₊ * l < t + l := by exact_mod_cast h2
    omega

/-- C7: for every paginated response the envelope built by the controller
satisfies totalPages equal to the ceiling of total over limit,
hasNextPage exactly when page times limit is below total, and hasPrevPage
exactly when the page number exceeds one; in particular page 2 with
limit 10 over 25 total solutions yields 10 items, totalPages 3,
hasNextPage true and hasPrevPage true. -/
theorem pagination_envelope_correct (total page limit : Nat)
    (hl : 0 < limit) :
    (paginatedEnvelope total page limit).totalPages =
      ⌈(total : ℚ) / (limit : ℚ)⌉₊ ∧
    ((paginatedEnvelope total page limit).hasNextPage = true ↔
      page * limit < total) ∧
    ((paginatedEnvelope total page limit).hasPrevPage = true ↔
      1 < page) ∧
    pageItemCount 25 2 10 = 10 ∧
    (paginatedEnvelope 25 2 10).totalPages = 3 ∧
    (paginatedEnvelope 25 2 10).hasNextPage = true ∧
    (paginatedEnvelope 25 2 10).hasPrevPage = true := by
  refine ⟨add_pred_div_eq_ceil total limit hl, ?_, ?_, by decide,
    by decide, by decide, by decide⟩
  · simp [paginatedEnvelope]
  · simp [paginatedEnvelope]

/-- Closed witness for C7 at the spec's concrete instance. -/
theorem pagination_envelope_correct_witness :
    0 < 10 ∧ (paginatedEnvelope 25 2 10).totalPages = 3 ∧
      (paginatedEnvelope 25 2 10).hasNextPage = true ∧
      (paginatedEnvelope 25 2 10).hasPrevPage = true ∧
      pageItemCount 25 2 10 = 10 :=
  ⟨by decide,
    (pagination_envelope_correct 25 2 10 (by decide)).2.2.2.2.1,
    (pagination_envelope_correct 25 2 10 (by decide)).2.2.2.2.2.1,
    (pagination_envelope_correct 25 2 10 (by decide)).2.2.2.2.2.2,
    (pagination_envelope_correct 25 2 10 (by decide)).2.2.2.1⟩

/-- C8: when the owning student updates a SUBMITTED solution, every
content field left undefined in the request keeps its previous value and
every defined field takes the supplied value. -/
theorem update_partial_semantics (sol : Solution) (c : ContentPatch)
    (s' : Solution)
    (h : updateSolution sol sol.studentId c = Except.ok s') :
    (c.title = none → s'.title = sol.title) ∧
    (∀ t, c.title = some t → s'.title = t) ∧
    (c.description = none → s'.description = sol.description) ∧
    (∀ d, c.description = some d → s'.description = d) ∧
    (c.submissionUrl = none → s'.submissionUrl = sol.submissionUrl) ∧
    (∀ u, c.submissionUrl = some u → s'.submissionUrl = u) := by
  simp only [updateSolution] at h
  split at h
  · simp at h
  · split at h
    · simp at h
    · rw [Except.ok.injEq] at h
      subst h
      exact ⟨fun ht => by simp [ht], fun t ht => by simp [ht],
        fun hd => by simp [hd], fun d hd => by simp [hd],
        fun hu => by simp [hu], fun u hu => by simp [hu]⟩

/-- Closed witness for C8 on the sample data: a patch defining only the
title changes the title and keeps the description. -/
theorem update_partial_semantics_witness :
    ({ sampleSubmitted with title := "New" } : Solution).description =
      sampleSubmitted.description ∧
    ({ sampleSubmitted with title := "New" } : Solution).title = "New" :=
  ⟨(update_partial_semantics sampleSubmitted
      { title := some "New", description := none, submissionUrl := none }
      ({ sampleSubmitted with title := "New" } : Solution) rfl).2.2.1 rfl,
    (update_partial_semantics sampleSubmitted
      { title := some "New", description := none, submissionUrl := none }
      ({ sampleSubmitted with title := "New" } : Solution) rfl).2.1
      "New" rfl⟩

/-- A request body carrying the challenge reference under both accepted
field names, with an empty challengeId. -/
def bothFieldsBody : SubmitBody :=
  { challenge := some "507f1f77bcf86cd799439011"
    challengeId := some ""
    title := "t"
    description := "d"
    submissionUrl := "u"
    tags := [] }

/-- A request body carrying a well-formed challengeId only. -/
def goodBody : SubmitBody :=
  { challenge := none
    challengeId := some "507f1f77bcf86cd799439011"
    title := "t"
    description := "d"
    submissionUrl := "u"
    tags := [] }

/-- C9 counterexample: with both fields present but challengeId equal to
the empty string, the controller expression challengeId-or-challenge
picks challenge, not challengeId — JavaScript truthiness makes the empty
string lose priority — and the submission succeeds using the challenge
field even though the challengeId field holds an invalid id. -/
theorem challenge_priority_counterexample :
    bothFieldsBody.challengeId = some "" ∧
    bothFieldsBody.challenge = some "507f1f77bcf86cd799439011" ∧
    effectiveChallengeRef bothFieldsBody ≠ bothFieldsBody.challengeId ∧
    effectiveChallengeRef bothFieldsBody = bothFieldsBody.challenge ∧
    (submitSolutionController "sol9" "stu9" bothFieldsBody).isOk =
      true := by
  refine ⟨rfl, rfl, by decide, rfl, by decide⟩

/-- A successful ObjectId validation means the chosen reference was
present and well formed. -/
theorem validateObjectId_ok (oref : Option String) (v : String)
    (h : validateObjectId oref = Except.ok v) :
    oref = some v ∧ isValidObjectId v = true := by
  cases oref with
  | none => simp [validateObjectId] at h
  | some w =>
      simp only [validateObjectId] at h
      split at h
      · rw [Except.ok.injEq] at h
        subst h
        rename_i hw
        exact ⟨rfl, hw⟩
      · simp at h

/-- C9 amended: the controller accepts the challenge reference under
either body field name; challengeId takes priority exactly when it is
present and non-empty (JavaScript truthiness), while an absent or empty
challengeId falls back to challenge; the chosen value is validated as an
ObjectId before the service is invoked, so a validation failure is
returned without any solution being created, and any created solution
carries a validated chosen reference. -/
theorem challenge_ref_selection (body : SubmitBody)
    (newId studentId : String) :
    (∀ v, body.challengeId = some v → v ≠ "" →
      effectiveChallengeRef body = some v) ∧
    (jsTruthy body.challengeId = false →
      effectiveChallengeRef body = body.challenge) ∧
    (∀ e, validateObjectId (effectiveChallengeRef body) =
        Except.error e →
      submitSolutionController newId studentId body =
        Except.error e) ∧
    (∀ s, submitSolutionController newId studentId body =
        Except.ok s →
      ∃ v, effectiveChallengeRef body = some v ∧
        isValidObjectId v = true ∧ s.challengeId = v ∧
        s.status = SolutionStatus.submitted) := by
  refine ⟨fun v hv hne => ?_, fun hf => ?_, fun e he => ?_,
    fun s hs => ?_⟩
  · simp [effectiveChallengeRef, jsTruthy, hv, hne]
  · simp [effectiveChallengeRef, hf]
  · simp [submitSolutionController, he]
  · simp only [submitSolutionController] at hs
    cases hv : validateObjectId (effectiveChallengeRef body) with
    | error e => rw [hv] at hs; simp at hs
    | ok v =>
        rw [hv] at hs
        rw [Except.ok.injEq] at hs
        subst hs
        obtain ⟨h1, h2⟩ := validateObjectId_ok _ _ hv
        exact ⟨v, h1, h2, rfl, rfl⟩

/-- Closed witness for the amended C9: a truthy challengeId is chosen, an
empty challengeId falls back to challenge, and an invalid chosen
reference yields a ValidationError. -/
theorem challenge_ref_selection_witness :
    effectiveChallengeRef goodBody = some "507f1f77bcf86cd799439011" ∧
    effectiveChallengeRef bothFieldsBody = bothFieldsBody.challenge ∧
    submitSolutionController "sol9" "stu9"
      ({ bothFieldsBody with challenge := none } : SubmitBody) =
      Except.error ServiceError.validationError :=
  ⟨(challenge_ref_selection goodBody "sol9" "stu9").1
      "507f1f77bcf86cd799439011" rfl (by decide),
    (challenge_ref_selection bothFieldsBody "sol9" "stu9").2.1 rfl,
    (challenge_ref_selection
      ({ bothFieldsBody with challenge := none } : SubmitBody)
      "sol9" "stu9").2.2.1 ServiceError.validationError rfl⟩

/-- C10: the update controller forwards only title, description and
submissionUrl to the service, so a successful update leaves tags
unchanged whatever the request body contained, while submission does set
tags from the submitted content. -/
theorem update_preserves_tags (sol : Solution) (sid : String)
    (body : UpdateBody) (s' : Solution)
    (h : updateSolutionController sol sid body = Except.ok s') :
    s'.tags = sol.tags ∧
    ∀ (i st cid t d u : String) (tg : List String),
      (submitSolution i st cid t d u tg).tags = tg := by
  refine ⟨?_, fun i st cid t d u tg => rfl⟩
  simp only [updateSolutionController, updateSolution] at h
  split at h
  · simp at h
  · split at h
    · simp at h
    · rw [Except.ok.injEq] at h
      subst h
      rfl

/-- Closed witness for C10: an update request that also carries a tags
field leaves the stored tags unchanged. -/
theorem update_preserves_tags_witness :
    ({ sampleSubmitted with title := "New" } : Solution).tags =
      sampleSubmitted.tags :=
  (update_preserves_tags sampleSubmitted "stu1"
    { title := some "New", description := none, submissionUrl := none,
      tags := some ["hack"] }
    ({ sampleSubmitted with title := "New" } : Solution) rfl).1

end XcelCrowd
